import Mathlib

/-!
Verification development for the AK8963 magnetometer driver
(`src/main/drivers/compass_ak8963.c` of the cleanflight repository).

The driver is embedded shallowly:

* Machine bytes and 32-bit microsecond timestamps are `Nat`, with the
  wrap-around of `uint32_t` subtraction and the `int32_t` reinterpretation
  made explicit (`usub32`, `toInt32`, `wrap32`).
* The per-axis gains computed by `ak8963Init` are modelled as exact
  rationals.  Every IEEE single-precision operation in the source gain
  expression `(((float)(int8_t)b - 128) / 256 + 1) * 30` is exact (the
  intermediate values are dyadic rationals with fewer than 24 significant
  bits), so the rational model coincides bit-for-bit with the float code.
  The final product `-(int16_t)raw * magGain[axis]` is likewise kept as an
  exact rational; no claim depends on the float rounding of that product
  or on the truncating store into `int16_t magData[]`.
* Bus traffic is made observable through an event trace (`BusEvent`),
  recording which registers are read or written, when a queued read is
  armed, and — for the queued-read completion — the value of the
  `waiting` flag at the moment the caller's buffer is filled (the source
  clears `waiting` on line 181 before draining the bus on line 183).
* A single invocation of `ak8963Read` is modelled with one `micros()`
  value for the whole call (`AsyncEnv.now`): the source only ever calls
  `ak8963SPICompleteRead` after the remaining-time check already returned
  zero, so the residual `delayMicroseconds` inside it is a no-op.
* The C local `uint8_t buf[7]` is uninitialized; `ak8963SPICompleteRead`
  fills only the first `queuedRead.len` bytes.  The model returns exactly
  those bytes, and theorems that inspect `buf[6]` or `buf[0]` therefore
  carry the armed length (7 resp. 1) as a hypothesis, matching the
  spec's invariant that the declared length is the length completed.
-/

/-! ## Register map and bit masks (lines 50-84 of the source) -/

def AK8963_MAG_I2C_ADDRESS : Nat := 0x0C
def AK8963_Device_ID : Nat := 0x48

def AK8963_MAG_REG_STATUS1 : Nat := 0x02
def AK8963_MAG_REG_HXL : Nat := 0x03
def AK8963_MAG_REG_STATUS2 : Nat := 0x09
def AK8963_MAG_REG_CNTL : Nat := 0x0a

def STATUS1_DATA_READY : Nat := 0x01
def STATUS1_DATA_OVERRUN : Nat := 0x02

def STATUS2_DATA_ERROR : Nat := 0x02
def STATUS2_MAG_SENSOR_OVERFLOW : Nat := 0x03

def CNTL_MODE_ONCE : Nat := 0x01
def CNTL_MODE_CONT1 : Nat := 0x02

/-! ## Machine-integer helpers -/

/-- Reinterpret a byte as C `int8_t` (two's complement). -/
def int8OfByte (b : Nat) : Int :=
  if b % 256 < 128 then (b % 256 : Int) else (b % 256 : Int) - 256

/-- Reinterpret a 16-bit value as C `int16_t` (two's complement). -/
def toInt16 (x : Nat) : Int :=
  if x % 65536 < 32768 then (x % 65536 : Int) else (x % 65536 : Int) - 65536

/-- `uint32_t` subtraction `a - b` (wraps modulo `2^32`). -/
def usub32 (a b : Nat) : Nat :=
  (a % 4294967296 + (4294967296 - b % 4294967296)) % 4294967296

/-- Reinterpret a `uint32_t` value as C `int32_t` (two's complement). -/
def toInt32 (x : Nat) : Int :=
  if x % 4294967296 < 2147483648 then (x % 4294967296 : Int)
  else (x % 4294967296 : Int) - 4294967296

/-- `int32_t` arithmetic result, wrapped into `[-2^31, 2^31)`. -/
def wrap32 (z : Int) : Int :=
  (z + 2147483648) % 4294967296 - 2147483648

/-! ## Calibration gains (`ak8963Init`, lines 262-264) -/

/-- The per-axis gains computed by `ak8963Init`. -/
structure MagGains where
  x : Rat
  y : Rat
  z : Rat
deriving DecidableEq

/-- Gain computed from one fuse-ROM calibration byte, source line 262:
`(((((float)(int8_t)calibration[X] - 128) / 256) + 1) * 30)`.
All float operations here are exact, so the rational value is the float
value. -/
def ak8963GainForByte (b : Nat) : Rat :=
  ((((int8OfByte b : Rat) - 128) / 256) + 1) * 30

/-- The three gain assignments of `ak8963Init` (lines 262-264). -/
def ak8963InitGains (calX calY calZ : Nat) : MagGains :=
  { x := ak8963GainForByte calX
    y := ak8963GainForByte calY
    z := ak8963GainForByte calZ }

/-- Modelled from the spec: the gain formula as §4.3/§8 state it,
`(((signed8(b) − 128)/256) + 1) × 30` with `signed8` the 8-bit
two's-complement reading of the byte. -/
def specGainFormula (b : Nat) : Rat :=
  (((int8OfByte b - 128 : Int) : Rat) / 256 + 1) * 30

/-! ## Sample decoding (lines 350-352 / 377-379) -/

/-- `magData[axis] = -(int16_t)(buf[hi] << 8 | buf[lo]) * magGain[axis]`,
for the three axes, kept as exact rationals. -/
def decodeSample (buf : List Nat) (g : MagGains) : Rat × Rat × Rat :=
  ( ((-(toInt16 (buf.getD 1 0 <<< 8 ||| buf.getD 0 0)) : Int) : Rat) * g.x
  , ((-(toInt16 (buf.getD 3 0 <<< 8 ||| buf.getD 2 0)) : Int) : Rat) * g.y
  , ((-(toInt16 (buf.getD 5 0 <<< 8 ||| buf.getD 4 0)) : Int) : Rat) * g.z )

/-! ## Observable bus events -/

/-- Bus traffic performed by one reader invocation. `fillBuffer` records
the value of `queuedRead.waiting` at the moment the caller's buffer is
filled by `mpu9250ReadRegister`. -/
inductive BusEvent where
  | regRead (reg len : Nat)
  | regWrite (reg val : Nat)
  | armRead (addr reg len : Nat)
  | fillBuffer (len : Nat) (waitingAtFill : Bool)
deriving DecidableEq

/-! ## Synchronous reader (`ak8963Read`, non-SPRACINGF3EVO branch, lines 361-382) -/

/-- One invocation's view of the bus for the synchronous reader:
`status1` is the outcome of the 1-byte STATUS1 read (`none` = no ack),
`data7` the outcome of the 7-byte read from HXL, `rearmAck` the ack of
the final `write(CNTL, CNTL_MODE_ONCE)`. -/
structure SyncBus where
  status1 : Option Nat
  data7 : Option (List Nat)
  rearmAck : Bool

/-- Result of one synchronous invocation: `ret` is the C return value,
`magData` the sample written into the caller's output array (if any),
`events` the bus traffic. -/
structure SyncResult where
  ret : Bool
  magData : Option (Rat × Rat × Rat)
  events : List BusEvent

/-- The synchronous reader, lines 362-382 of the source. -/
def ak8963ReadSync (bus : SyncBus) (g : MagGains) : SyncResult :=
  match bus.status1 with
  | none =>
    { ret := false, magData := none
      events := [.regRead AK8963_MAG_REG_STATUS1 1] }
  | some status =>
    if status &&& STATUS1_DATA_READY = 0 then
      -- line 366: only DATA_READY is tested in this mode
      { ret := false, magData := none
        events := [.regRead AK8963_MAG_REG_STATUS1 1] }
    else
      match bus.data7 with
      | none =>
        { ret := false, magData := none
          events := [.regRead AK8963_MAG_REG_STATUS1 1,
                     .regRead AK8963_MAG_REG_HXL 7] }
      | some buf =>
        if buf.getD 6 0 &&& STATUS2_DATA_ERROR ≠ 0 ∨
            buf.getD 6 0 &&& STATUS2_MAG_SENSOR_OVERFLOW ≠ 0 then
          { ret := false, magData := none
            events := [.regRead AK8963_MAG_REG_STATUS1 1,
                       .regRead AK8963_MAG_REG_HXL 7] }
        else
          -- lines 377-381: the sample is stored, then the re-arm write's
          -- ack is returned as the function result
          { ret := bus.rearmAck, magData := some (decodeSample buf g)
            events := [.regRead AK8963_MAG_REG_STATUS1 1,
                       .regRead AK8963_MAG_REG_HXL 7,
                       .regWrite AK8963_MAG_REG_CNTL CNTL_MODE_ONCE] }

/-- Unit gains, used to evaluate concrete scenarios. -/
def gains1 : MagGains := { x := 1, y := 1, z := 1 }

/-! ## Asynchronous queued reader (SPRACINGF3EVO branch, lines 128-360) -/

/-- `queuedReadState_t` (lines 130-134). -/
structure QueuedReadState where
  waiting : Bool
  len : Nat
  readStartedAt : Nat
deriving DecidableEq

/-- `ak8963ReadState_e` (lines 281-285). -/
inductive Ak8963ReadState where
  | CHECK_STATUS
  | WAITING_FOR_STATUS
  | WAITING_FOR_DATA
deriving DecidableEq

/-- The persistent driver state of the asynchronous reader: the queued-read
slot (`queuedRead`, line 136) and the protocol state (`state`, line 297). -/
structure AsyncDriverState where
  queuedRead : QueuedReadState
  state : Ak8963ReadState
deriving DecidableEq

/-- One invocation's environment: the `micros()` value during the call and
the bytes the upstream chip's I2C master currently holds in its external
sensor data registers (what `mpu9250ReadRegister(MPU_RA_EXT_SENS_DATA_00, …)`
returns). -/
structure AsyncEnv where
  now : Nat
  extSensData : List Nat

/-- Result of `ak8963SPIStartRead` (lines 138-154). -/
structure StartReadResult where
  started : Bool
  queuedRead : QueuedReadState
  events : List BusEvent
deriving DecidableEq

/-- `ak8963SPIStartRead` (lines 138-154): rejected outright while a read is
outstanding; otherwise records the length, programs the SLV0 registers,
stamps the start time and sets `waiting`. -/
def ak8963SPIStartRead (q : QueuedReadState) (now : Nat) (addr reg len : Nat) :
    StartReadResult :=
  if q.waiting then
    { started := false, queuedRead := q, events := [] }
  else
    { started := true
      queuedRead := { waiting := true, len := len, readStartedAt := now }
      events := [.armRead addr reg len] }

/-- `ak8963SPIQueuedReadTimeRemaining` (lines 156-171).  The subtraction
`micros() - queuedRead.readStartedAt` is `uint32_t` arithmetic stored into
an `int32_t`; `8000 - timeSinceStarted` is `int32_t` arithmetic. -/
def ak8963SPIQueuedReadTimeRemaining (q : QueuedReadState) (now : Nat) : Nat :=
  if q.waiting = false then 0
  else
    let timeSinceStarted : Int := toInt32 (usub32 now q.readStartedAt)
    let timeRemaining : Int := wrap32 (8000 - timeSinceStarted)
    if timeRemaining < 0 then 0 else timeRemaining.toNat

/-- Result of `ak8963SPICompleteRead` (lines 173-185). -/
structure CompleteReadResult where
  ack : Bool
  buf : List Nat
  queuedRead : QueuedReadState
  events : List BusEvent

/-- `ak8963SPICompleteRead` (lines 173-185): waits out any residual budget
(a no-op here, since the reader only calls it once the remaining time is
zero), clears `waiting` (line 181) and only then drains `queuedRead.len`
bytes into the caller's buffer (line 183); the hard-coded result is `true`. -/
def ak8963SPICompleteRead (q : QueuedReadState) (now : Nat) (ext : List Nat) :
    CompleteReadResult :=
  let _timeRemaining := ak8963SPIQueuedReadTimeRemaining q now
  let q2 : QueuedReadState := { q with waiting := false }
  { ack := true
    buf := ext.take q2.len
    queuedRead := q2
    events := [.fillBuffer q2.len q2.waiting] }

/-- Result of one invocation of the asynchronous `ak8963Read`: the C return
value, the sample written to the caller's array (if any), the final
persistent state, the bus traffic, and how many times the `goto restart`
retry was taken inside this single invocation. -/
structure AsyncResult where
  ret : Bool
  magData : Option (Rat × Rat × Rat)
  final : AsyncDriverState
  events : List BusEvent
  restarts : Nat

/-- The asynchronous `ak8963Read` body (lines 287-360).  The C `bool retry`
initialized `true` and the single `goto restart` are modelled by the
`retriesLeft` fuel: the retry branch re-dispatches on the (now
`CHECK_STATUS`) state with one fewer retry, exactly as the source jump
re-enters the `switch` after setting `retry = false`. -/
def ak8963ReadGo (env : AsyncEnv) (g : MagGains) (retriesLeft : Nat)
    (s : AsyncDriverState) : AsyncResult :=
  match s.state with
  | .CHECK_STATUS =>
    -- lines 303-306: start a 1-byte STATUS1 read (result ignored), state++
    let r := ak8963SPIStartRead s.queuedRead env.now AK8963_MAG_I2C_ADDRESS
        AK8963_MAG_REG_STATUS1 1
    { ret := false, magData := none
      final := { queuedRead := r.queuedRead, state := .WAITING_FOR_STATUS }
      events := r.events, restarts := 0 }
  | .WAITING_FOR_STATUS =>
    if ak8963SPIQueuedReadTimeRemaining s.queuedRead env.now ≠ 0 then
      -- lines 309-312
      { ret := false, magData := none, final := s, events := [], restarts := 0 }
    else
      let c := ak8963SPICompleteRead s.queuedRead env.now env.extSensData
      let status := c.buf.getD 0 0
      if c.ack = false ∨ (status &&& STATUS1_DATA_READY = 0 ∧
          status &&& STATUS1_DATA_OVERRUN = 0) then
        -- lines 318-326: too early; state = CHECK_STATUS then one retry
        let s2 : AsyncDriverState := { queuedRead := c.queuedRead, state := .CHECK_STATUS }
        match retriesLeft with
        | Nat.succ n =>
          let r := ak8963ReadGo env g n s2
          { r with events := c.events ++ r.events, restarts := r.restarts + 1 }
        | 0 =>
          { ret := false, magData := none, final := s2
            events := c.events, restarts := 0 }
      else
        -- lines 330-334: queue the 7-byte data read, state++
        let r := ak8963SPIStartRead c.queuedRead env.now AK8963_MAG_I2C_ADDRESS
            AK8963_MAG_REG_HXL 7
        { ret := false, magData := none
          final := { queuedRead := r.queuedRead, state := .WAITING_FOR_DATA }
          events := c.events ++ r.events, restarts := 0 }
  | .WAITING_FOR_DATA =>
    if ak8963SPIQueuedReadTimeRemaining s.queuedRead env.now ≠ 0 then
      -- lines 338-341
      { ret := false, magData := none, final := s, events := [], restarts := 0 }
    else
      let c := ak8963SPICompleteRead s.queuedRead env.now env.extSensData
      let status2 := c.buf.getD 6 0
      if c.ack = false ∨ status2 &&& STATUS2_DATA_ERROR ≠ 0 ∨
          status2 &&& STATUS2_MAG_SENSOR_OVERFLOW ≠ 0 then
        -- lines 346-348: return false; note `state` is NOT reset here
        { ret := false, magData := none
          final := { queuedRead := c.queuedRead, state := .WAITING_FOR_DATA }
          events := c.events, restarts := 0 }
      else
        -- lines 350-356: store the sample, state = CHECK_STATUS, return true
        { ret := true, magData := some (decodeSample c.buf g)
          final := { queuedRead := c.queuedRead, state := .CHECK_STATUS }
          events := c.events, restarts := 0 }

/-- One invocation of the asynchronous `ak8963Read`: `bool retry = true`
means one retry is available. -/
def ak8963ReadAsync (env : AsyncEnv) (g : MagGains) (s : AsyncDriverState) :
    AsyncResult :=
  ak8963ReadGo env g 1 s

/-! ## Concrete scenarios used in counterexamples and witnesses -/

/-- Status read acks with only the data-overrun bit (`0x02`) set. -/
def busOverrunOnly : SyncBus :=
  { status1 := some 2, data7 := some [0,0,0,0,0,0,0], rearmAck := true }

/-- Good status; data bytes decode to 256, 512, 768; trailing status-2 byte
`0x04` (bit 2 only). -/
def busGoodStatus2Bit2 : SyncBus :=
  { status1 := some 1, data7 := some [0,1,0,2,0,3,4], rearmAck := true }

/-- Good status and data, but the re-arm write is not acknowledged. -/
def busGoodRearmFail : SyncBus :=
  { status1 := some 1, data7 := some [0,0,0,0,0,0,0], rearmAck := false }

/-- Good status and data with trailing status-2 byte `0x01` (bit 0 only). -/
def busStatus2Bit0 : SyncBus :=
  { status1 := some 1, data7 := some [0,0,0,0,0,0,1], rearmAck := true }

/-- Queued 7-byte transaction whose trailing byte has the data-error bit. -/
def envDataError : AsyncEnv := { now := 8000, extSensData := [0,0,0,0,0,0,2] }

/-- Queued 1-byte status transaction that completed with byte `0x00`. -/
def envStatusIdle : AsyncEnv := { now := 8000, extSensData := [0] }

/-- Queued 7-byte transaction that completed with all-zero bytes (clean
trailing status byte). -/
def envGoodData : AsyncEnv := { now := 8000, extSensData := [0,0,0,0,0,0,0] }

/-- A queued 7-byte data read outstanding since clock 0. -/
def waitingDataState : AsyncDriverState :=
  { queuedRead := { waiting := true, len := 7, readStartedAt := 0 }
    state := .WAITING_FOR_DATA }

/-- A queued 1-byte status read outstanding since clock 0. -/
def waitingStatusState : AsyncDriverState :=
  { queuedRead := { waiting := true, len := 1, readStartedAt := 0 }
    state := .WAITING_FOR_STATUS }

/-! ## Helper lemmas -/

/-- `uint32_t` subtraction of a start stamp from a later stamp of the same
clock recovers the elapsed time modulo `2^32`. -/
theorem usub32_add (T e : Nat) : usub32 (T + e) T = e % 4294967296 := by
  unfold usub32
  omega

/-- A byte rejected by the `STATUS2_DATA_ERROR` mask (`0x02`) is also
rejected by the `STATUS2_MAG_SENSOR_OVERFLOW` mask (`0x03`): bit 1 is
contained in the `0x03` mask. -/
theorem and_two_ne_zero_imp_and_three (x : Nat) (h : x &&& 2 ≠ 0) :
    x &&& 3 ≠ 0 := by
  intro h3
  apply h
  calc x &&& 2 = x &&& (3 &&& 2) := by rw [show (3:Nat) &&& 2 = 2 from rfl]
    _ = x &&& 3 &&& 2 := by rw [Nat.and_assoc]
    _ = 0 := by rw [h3]; rfl

/-- The source's status-2 rejection condition collapses to the single mask
`0x03`, i.e. to "bit 0 or bit 1 of the trailing status byte is set". -/
theorem status2_reject_iff (x : Nat) :
    (x &&& STATUS2_DATA_ERROR ≠ 0 ∨ x &&& STATUS2_MAG_SENSOR_OVERFLOW ≠ 0) ↔
      x &&& 3 ≠ 0 := by
  unfold STATUS2_DATA_ERROR STATUS2_MAG_SENSOR_OVERFLOW
  constructor
  · rintro (h | h)
    · exact and_two_ne_zero_imp_and_three x h
    · exact h
  · exact fun h => Or.inr h

/-- Once the status read acked with the ready bit set and the 7-byte read
acked, the synchronous reader's outcome is decided by the trailing byte
against the `0x03` mask. -/
theorem ak8963ReadSync_data_cases (bus : SyncBus) (g : MagGains) (st : Nat)
    (buf : List Nat) (h1 : bus.status1 = some st)
    (h2 : st &&& STATUS1_DATA_READY ≠ 0) (h3 : bus.data7 = some buf) :
    ak8963ReadSync bus g =
      if buf.getD 6 0 &&& 3 ≠ 0 then
        { ret := false, magData := none
          events := [.regRead AK8963_MAG_REG_STATUS1 1,
            .regRead AK8963_MAG_REG_HXL 7] }
      else
        { ret := bus.rearmAck, magData := some (decodeSample buf g)
          events := [.regRead AK8963_MAG_REG_STATUS1 1,
            .regRead AK8963_MAG_REG_HXL 7,
            .regWrite AK8963_MAG_REG_CNTL CNTL_MODE_ONCE] } := by
  simp only [ak8963ReadSync, h1, h3]
  rw [if_neg h2]
  by_cases hx : buf.getD 6 0 &&& STATUS2_DATA_ERROR ≠ 0 ∨
      buf.getD 6 0 &&& STATUS2_MAG_SENSOR_OVERFLOW ≠ 0
  · rw [if_pos hx, if_pos ((status2_reject_iff _).mp hx)]
  · rw [if_neg hx, if_neg (fun hm => hx ((status2_reject_iff _).mpr hm))]

/-- Unfolding of one `CHECK_STATUS` step (lines 303-306). -/
theorem ak8963ReadGo_check_status (env : AsyncEnv) (g : MagGains) (n : Nat)
    (s : AsyncDriverState) (hst : s.state = .CHECK_STATUS) :
    ak8963ReadGo env g n s =
      { ret := false, magData := none
        final :=
          { queuedRead := (ak8963SPIStartRead s.queuedRead env.now
                AK8963_MAG_I2C_ADDRESS AK8963_MAG_REG_STATUS1 1).queuedRead
            state := .WAITING_FOR_STATUS }
        events := (ak8963SPIStartRead s.queuedRead env.now
            AK8963_MAG_I2C_ADDRESS AK8963_MAG_REG_STATUS1 1).events
        restarts := 0 } := by
  simp only [ak8963ReadGo, hst]

/-- Unfolding of a `WAITING_FOR_STATUS` step while the conversion budget
has not elapsed (lines 309-312). -/
theorem ak8963ReadGo_status_pending (env : AsyncEnv) (g : MagGains) (n : Nat)
    (s : AsyncDriverState) (hst : s.state = .WAITING_FOR_STATUS)
    (ht : ak8963SPIQueuedReadTimeRemaining s.queuedRead env.now ≠ 0) :
    ak8963ReadGo env g n s =
      { ret := false, magData := none, final := s, events := []
        restarts := 0 } := by
  simp only [ak8963ReadGo, hst]
  rw [if_pos ht]

/-- Unfolding of a `WAITING_FOR_DATA` step while the conversion budget has
not elapsed (lines 338-341). -/
theorem ak8963ReadGo_data_pending (env : AsyncEnv) (g : MagGains) (n : Nat)
    (s : AsyncDriverState) (hst : s.state = .WAITING_FOR_DATA)
    (ht : ak8963SPIQueuedReadTimeRemaining s.queuedRead env.now ≠ 0) :
    ak8963ReadGo env g n s =
      { ret := false, magData := none, final := s, events := []
        restarts := 0 } := by
  simp only [ak8963ReadGo, hst]
  rw [if_pos ht]

/-- Unfolding of an elapsed `WAITING_FOR_DATA` step (lines 338-356): the
acknowledgment is hard-coded true, so the outcome is decided by the
trailing byte against the `0x03` mask; on rejection the protocol state
stays `WAITING_FOR_DATA`. -/
theorem ak8963ReadGo_waiting_for_data (env : AsyncEnv) (g : MagGains) (n : Nat)
    (s : AsyncDriverState) (hst : s.state = .WAITING_FOR_DATA)
    (ht : ak8963SPIQueuedReadTimeRemaining s.queuedRead env.now = 0) :
    ak8963ReadGo env g n s =
      if (env.extSensData.take s.queuedRead.len).getD 6 0 &&& 3 ≠ 0 then
        { ret := false, magData := none
          final :=
            { queuedRead := { s.queuedRead with waiting := false }
              state := .WAITING_FOR_DATA }
          events := [.fillBuffer s.queuedRead.len false], restarts := 0 }
      else
        { ret := true
          magData := some (decodeSample (env.extSensData.take s.queuedRead.len) g)
          final :=
            { queuedRead := { s.queuedRead with waiting := false }
              state := .CHECK_STATUS }
          events := [.fillBuffer s.queuedRead.len false], restarts := 0 } := by
  have ht' : ¬ ak8963SPIQueuedReadTimeRemaining s.queuedRead env.now ≠ 0 := by
    simp [ht]
  simp only [ak8963ReadGo, hst, ak8963SPICompleteRead]
  rw [if_neg ht']
  by_cases hx : (env.extSensData.take s.queuedRead.len).getD 6 0 &&&
      STATUS2_DATA_ERROR ≠ 0 ∨
      (env.extSensData.take s.queuedRead.len).getD 6 0 &&&
      STATUS2_MAG_SENSOR_OVERFLOW ≠ 0
  · rw [if_pos (Or.inr hx), if_pos ((status2_reject_iff _).mp hx)]
  · rw [if_neg (fun hm => hx ((status2_reject_iff _).mpr hm))]
    rw [if_neg ?hnc]
    case hnc =>
      rintro (h | h)
      · exact Bool.noConfusion h
      · exact hx h

/-- Unfolding of an elapsed `WAITING_FOR_STATUS` step whose completed
status byte shows ready or overrun (lines 330-334). -/
theorem ak8963ReadGo_status_hit (env : AsyncEnv) (g : MagGains) (n : Nat)
    (s : AsyncDriverState) (hst : s.state = .WAITING_FOR_STATUS)
    (ht : ak8963SPIQueuedReadTimeRemaining s.queuedRead env.now = 0)
    (hh : ¬ ((env.extSensData.take s.queuedRead.len).getD 0 0 &&&
        STATUS1_DATA_READY = 0 ∧
      (env.extSensData.take s.queuedRead.len).getD 0 0 &&&
        STATUS1_DATA_OVERRUN = 0)) :
    ak8963ReadGo env g n s =
      { ret := false, magData := none
        final :=
          { queuedRead := { waiting := true, len := 7, readStartedAt := env.now }
            state := .WAITING_FOR_DATA }
        events := [.fillBuffer s.queuedRead.len false,
          .armRead AK8963_MAG_I2C_ADDRESS AK8963_MAG_REG_HXL 7]
        restarts := 0 } := by
  have ht' : ¬ ak8963SPIQueuedReadTimeRemaining s.queuedRead env.now ≠ 0 := by
    simp [ht]
  simp only [ak8963ReadGo, hst, ak8963SPICompleteRead, ak8963SPIStartRead]
  rw [if_neg ht']
  rw [if_neg ?hnc]
  case hnc =>
    rintro (h | h)
    · exact Bool.noConfusion h
    · exact hh h
  simp

/-- Unfolding of a full invocation that enters an elapsed
`WAITING_FOR_STATUS` step whose completed status byte shows neither ready
nor overrun: the single retry re-enters `CHECK_STATUS` synchronously,
queues a fresh status read and returns "no sample yet" (lines 318-326). -/
theorem ak8963ReadAsync_status_miss (env : AsyncEnv) (g : MagGains)
    (s : AsyncDriverState) (hst : s.state = .WAITING_FOR_STATUS)
    (ht : ak8963SPIQueuedReadTimeRemaining s.queuedRead env.now = 0)
    (hmiss : (env.extSensData.take s.queuedRead.len).getD 0 0 &&&
        STATUS1_DATA_READY = 0 ∧
      (env.extSensData.take s.queuedRead.len).getD 0 0 &&&
        STATUS1_DATA_OVERRUN = 0) :
    ak8963ReadAsync env g s =
      { ret := false, magData := none
        final :=
          { queuedRead := { waiting := true, len := 1, readStartedAt := env.now }
            state := .WAITING_FOR_STATUS }
        events := [.fillBuffer s.queuedRead.len false,
          .armRead AK8963_MAG_I2C_ADDRESS AK8963_MAG_REG_STATUS1 1]
        restarts := 1 } := by
  have ht' : ¬ ak8963SPIQueuedReadTimeRemaining s.queuedRead env.now ≠ 0 := by
    simp [ht]
  simp only [ak8963ReadAsync, ak8963ReadGo, ak8963SPICompleteRead,
    ak8963SPIStartRead, hst]
  rw [if_neg ht']
  rw [if_pos (Or.inr hmiss)]
  simp


/-- Unfolding of an elapsed `WAITING_FOR_STATUS` miss step when the retry
has already been consumed: the state returns to `CHECK_STATUS` and the
call reports "no sample yet" (lines 318-325, `retry == false`). -/
theorem ak8963ReadGo_status_miss_zero (env : AsyncEnv) (g : MagGains)
    (s : AsyncDriverState) (hst : s.state = .WAITING_FOR_STATUS)
    (ht : ak8963SPIQueuedReadTimeRemaining s.queuedRead env.now = 0)
    (hmiss : (env.extSensData.take s.queuedRead.len).getD 0 0 &&&
        STATUS1_DATA_READY = 0 ∧
      (env.extSensData.take s.queuedRead.len).getD 0 0 &&&
        STATUS1_DATA_OVERRUN = 0) :
    ak8963ReadGo env g 0 s =
      { ret := false, magData := none
        final :=
          { queuedRead := { s.queuedRead with waiting := false }
            state := .CHECK_STATUS }
        events := [BusEvent.fillBuffer s.queuedRead.len false]
        restarts := 0 } := by
  have ht' : ¬ ak8963SPIQueuedReadTimeRemaining s.queuedRead env.now ≠ 0 := by
    simp [ht]
  simp only [ak8963ReadGo, ak8963SPICompleteRead, hst]
  rw [if_neg ht', if_pos (Or.inr hmiss)]

/-- Unfolding of an elapsed `WAITING_FOR_STATUS` miss step while a retry
is available: the result is the retried `CHECK_STATUS` invocation with
the completed status read's buffer fill prepended to its trace and the
restart counter bumped (lines 318-324, `goto restart`). -/
theorem ak8963ReadGo_status_miss_succ (env : AsyncEnv) (g : MagGains) (n : Nat)
    (s : AsyncDriverState) (hst : s.state = .WAITING_FOR_STATUS)
    (ht : ak8963SPIQueuedReadTimeRemaining s.queuedRead env.now = 0)
    (hmiss : (env.extSensData.take s.queuedRead.len).getD 0 0 &&&
        STATUS1_DATA_READY = 0 ∧
      (env.extSensData.take s.queuedRead.len).getD 0 0 &&&
        STATUS1_DATA_OVERRUN = 0) :
    ak8963ReadGo env g (n + 1) s =
      { ret := (ak8963ReadGo env g n
          { queuedRead := { s.queuedRead with waiting := false }
            state := .CHECK_STATUS }).ret
        magData := (ak8963ReadGo env g n
          { queuedRead := { s.queuedRead with waiting := false }
            state := .CHECK_STATUS }).magData
        final := (ak8963ReadGo env g n
          { queuedRead := { s.queuedRead with waiting := false }
            state := .CHECK_STATUS }).final
        events := BusEvent.fillBuffer s.queuedRead.len false ::
          (ak8963ReadGo env g n
            { queuedRead := { s.queuedRead with waiting := false }
              state := .CHECK_STATUS }).events
        restarts := (ak8963ReadGo env g n
          { queuedRead := { s.queuedRead with waiting := false }
            state := .CHECK_STATUS }).restarts + 1 } := by
  have ht' : ¬ ak8963SPIQueuedReadTimeRemaining s.queuedRead env.now ≠ 0 := by
    simp [ht]
  simp only [ak8963ReadGo, ak8963SPICompleteRead, hst]
  rw [if_neg ht', if_pos (Or.inr hmiss)]
  rfl

/-- Every buffer fill recorded by any invocation, at any retry fuel, from
any state, happens with the `waiting` flag already cleared. -/
theorem ak8963ReadGo_fill_false (env : AsyncEnv) (g : MagGains) :
    ∀ (n : Nat) (s : AsyncDriverState) (len : Nat) (w : Bool),
      BusEvent.fillBuffer len w ∈ (ak8963ReadGo env g n s).events → w = false := by
  intro n
  induction n with
  | zero =>
    intro s len w hmem
    cases hst : s.state with
    | CHECK_STATUS =>
      rw [ak8963ReadGo_check_status env g 0 s hst] at hmem
      simp only [ak8963SPIStartRead] at hmem
      split at hmem <;> simp at hmem
    | WAITING_FOR_STATUS =>
      by_cases ht : ak8963SPIQueuedReadTimeRemaining s.queuedRead env.now = 0
      · by_cases hm : (env.extSensData.take s.queuedRead.len).getD 0 0 &&&
            STATUS1_DATA_READY = 0 ∧
            (env.extSensData.take s.queuedRead.len).getD 0 0 &&&
            STATUS1_DATA_OVERRUN = 0
        · rw [ak8963ReadGo_status_miss_zero env g s hst ht hm] at hmem
          simp at hmem
          exact hmem.2
        · rw [ak8963ReadGo_status_hit env g 0 s hst ht hm] at hmem
          simp at hmem
          exact hmem.2
      · rw [ak8963ReadGo_status_pending env g 0 s hst ht] at hmem
        simp at hmem
    | WAITING_FOR_DATA =>
      by_cases ht : ak8963SPIQueuedReadTimeRemaining s.queuedRead env.now = 0
      · rw [ak8963ReadGo_waiting_for_data env g 0 s hst ht] at hmem
        split at hmem <;> (simp at hmem; exact hmem.2)
      · rw [ak8963ReadGo_data_pending env g 0 s hst ht] at hmem
        simp at hmem
  | succ n ih =>
    intro s len w hmem
    cases hst : s.state with
    | CHECK_STATUS =>
      rw [ak8963ReadGo_check_status env g (n + 1) s hst] at hmem
      simp only [ak8963SPIStartRead] at hmem
      split at hmem <;> simp at hmem
    | WAITING_FOR_STATUS =>
      by_cases ht : ak8963SPIQueuedReadTimeRemaining s.queuedRead env.now = 0
      · by_cases hm : (env.extSensData.take s.queuedRead.len).getD 0 0 &&&
            STATUS1_DATA_READY = 0 ∧
            (env.extSensData.take s.queuedRead.len).getD 0 0 &&&
            STATUS1_DATA_OVERRUN = 0
        · rw [ak8963ReadGo_status_miss_succ env g n s hst ht hm] at hmem
          simp only [List.mem_cons] at hmem
          rcases hmem with hmem | hmem
          · injection hmem with _ hw
          · exact ih _ len w hmem
        · rw [ak8963ReadGo_status_hit env g (n + 1) s hst ht hm] at hmem
          simp at hmem
          exact hmem.2
      · rw [ak8963ReadGo_status_pending env g (n + 1) s hst ht] at hmem
        simp at hmem
    | WAITING_FOR_DATA =>
      by_cases ht : ak8963SPIQueuedReadTimeRemaining s.queuedRead env.now = 0
      · rw [ak8963ReadGo_waiting_for_data env g (n + 1) s hst ht] at hmem
        split at hmem <;> (simp at hmem; exact hmem.2)
      · rw [ak8963ReadGo_data_pending env g (n + 1) s hst ht] at hmem
        simp at hmem

/-! ## Claim theorems -/

/-- Claim C1, counterexample: a completed queued 7-byte read whose trailing
status byte has the data-error bit (`0x02`) set makes `ak8963Read` return
no sample — but the persistent protocol state is left in
`WAITING_FOR_DATA`, not reset to `CHECK_STATUS`. -/
theorem c1_error_state_not_reset_cex :
    ([0,0,0,0,0,0,2] : List Nat).getD 6 0 &&& STATUS2_DATA_ERROR ≠ 0 ∧
    (ak8963ReadAsync envDataError gains1 waitingDataState).ret = false ∧
    (ak8963ReadAsync envDataError gains1 waitingDataState).magData = none ∧
    (ak8963ReadAsync envDataError gains1 waitingDataState).final.state =
      .WAITING_FOR_DATA ∧
    (ak8963ReadAsync envDataError gains1 waitingDataState).final.state ≠
      .CHECK_STATUS := by
  decide

/-- Claim C1, amended: when the queued 7-byte transaction completes and
the trailing status byte shows data error or sensor overflow, the
asynchronous reader returns no sample and clears the `waiting` flag, but
the persistent read-protocol state stays in `WAITING_FOR_DATA` (the
source's error branch at lines 346-348 returns without touching
`state`); it is not reset to `CHECK_STATUS`. -/
theorem c1_error_leaves_waiting_for_data (env : AsyncEnv) (g : MagGains)
    (s : AsyncDriverState) (hst : s.state = .WAITING_FOR_DATA)
    (ht : ak8963SPIQueuedReadTimeRemaining s.queuedRead env.now = 0)
    (herr : (env.extSensData.take s.queuedRead.len).getD 6 0 &&&
        STATUS2_DATA_ERROR ≠ 0 ∨
      (env.extSensData.take s.queuedRead.len).getD 6 0 &&&
        STATUS2_MAG_SENSOR_OVERFLOW ≠ 0) :
    (ak8963ReadAsync env g s).ret = false ∧
    (ak8963ReadAsync env g s).magData = none ∧
    (ak8963ReadAsync env g s).final.state = .WAITING_FOR_DATA ∧
    (ak8963ReadAsync env g s).final.queuedRead.waiting = false := by
  have h3 := (status2_reject_iff _).mp herr
  simp only [ak8963ReadAsync]
  rw [ak8963ReadGo_waiting_for_data env g 1 s hst ht, if_pos h3]
  exact ⟨rfl, rfl, rfl, rfl⟩

/-- Witness for C1 (amended) at the concrete data-error scenario. -/
theorem c1_error_leaves_waiting_for_data_witness :
    (ak8963ReadAsync envDataError gains1 waitingDataState).ret = false ∧
    (ak8963ReadAsync envDataError gains1 waitingDataState).magData = none ∧
    (ak8963ReadAsync envDataError gains1 waitingDataState).final.state =
      .WAITING_FOR_DATA ∧
    (ak8963ReadAsync envDataError gains1 waitingDataState).final.queuedRead.waiting
      = false :=
  c1_error_leaves_waiting_for_data envDataError gains1 waitingDataState rfl
    (by decide) (by decide)

/-- Claim C2, counterexample: a trailing Status-2 byte of `0x04` (bit 1
clear, bit 2 set) does not suppress the sample: the synchronous reader
decodes and emits it and returns true, because the source masks are
`0x02` and `0x03`, neither of which covers bit 2. -/
theorem c2_bit2_not_suppressed_cex :
    ((4 : Nat) &&& 2 = 0 ∧ (4 : Nat) &&& 4 ≠ 0) ∧
    (ak8963ReadSync busGoodStatus2Bit2 gains1).ret = true ∧
    (ak8963ReadSync busGoodStatus2Bit2 gains1).magData =
      some (-256, -512, -768) := by
  refine ⟨by decide, by decide, ?_⟩
  simp [busGoodStatus2Bit2, ak8963ReadSync, decodeSample, toInt16, gains1,
    STATUS1_DATA_READY, STATUS2_DATA_ERROR, STATUS2_MAG_SENSOR_OVERFLOW,
    show (4:Nat) &&& 2 = 0 from rfl, show (4:Nat) &&& 3 = 0 from rfl]

/-- Claim C2, amended: in both reader modes a completed 7-byte data read
is suppressed exactly when `status2 &&& 0x03 ≠ 0`, i.e. when bit 0 or
bit 1 of the trailing byte is set (the source tests the masks
`STATUS2_DATA_ERROR = 0x02` and `STATUS2_MAG_SENSOR_OVERFLOW = 0x03`, and
the `0x02` test is subsumed by the `0x03` one); a byte with only bit 2
set (`0x04`) lets the sample through. -/
theorem c2_suppress_iff_low_bits (bus : SyncBus) (g : MagGains) (st : Nat)
    (buf : List Nat) (h1 : bus.status1 = some st)
    (h2 : st &&& STATUS1_DATA_READY ≠ 0) (h3 : bus.data7 = some buf) :
    ((ak8963ReadSync bus g).magData = none ↔ buf.getD 6 0 &&& 3 ≠ 0) ∧
    (∀ (env : AsyncEnv) (s : AsyncDriverState),
      s.state = .WAITING_FOR_DATA →
      ak8963SPIQueuedReadTimeRemaining s.queuedRead env.now = 0 →
      ((ak8963ReadAsync env g s).magData = none ↔
        (env.extSensData.take s.queuedRead.len).getD 6 0 &&& 3 ≠ 0)) := by
  constructor
  · rw [ak8963ReadSync_data_cases bus g st buf h1 h2 h3]
    by_cases hm : buf.getD 6 0 &&& 3 ≠ 0
    · rw [if_pos hm]
      simpa using hm
    · rw [if_neg hm]
      simpa using hm
  · intro env s hst ht
    simp only [ak8963ReadAsync]
    rw [ak8963ReadGo_waiting_for_data env g 1 s hst ht]
    by_cases hm : (env.extSensData.take s.queuedRead.len).getD 6 0 &&& 3 ≠ 0
    · rw [if_pos hm]
      simpa using hm
    · rw [if_neg hm]
      simpa using hm

/-- Witness for C2 (amended): a status-2 byte of `0x01` (bit 0) suppresses
the sample in the synchronous mode, and a status-2 byte of `0x02` (bit 1)
suppresses it in the asynchronous mode. -/
theorem c2_suppress_iff_low_bits_witness :
    ((ak8963ReadSync busStatus2Bit0 gains1).magData = none ↔
      ([0,0,0,0,0,0,1] : List Nat).getD 6 0 &&& 3 ≠ 0) ∧
    ((ak8963ReadAsync envDataError gains1 waitingDataState).magData = none ↔
      (envDataError.extSensData.take
        waitingDataState.queuedRead.len).getD 6 0 &&& 3 ≠ 0) :=
  ⟨(c2_suppress_iff_low_bits busStatus2Bit0 gains1 1 [0,0,0,0,0,0,1] rfl
      (by decide) rfl).1,
   (c2_suppress_iff_low_bits busStatus2Bit0 gains1 1 [0,0,0,0,0,0,1] rfl
      (by decide) rfl).2 envDataError waitingDataState rfl (by decide)⟩

/-- Claim C3, counterexample: with good status and data but a failed
re-arm write, the synchronous reader stores the decoded sample in the
caller's output array yet returns `false` ("no sample"): the re-arm
write's failure does turn the invocation's result into "no sample". -/
theorem c3_rearm_failure_cex :
    (ak8963ReadSync busGoodRearmFail gains1).magData = some (0, 0, 0) ∧
    (ak8963ReadSync busGoodRearmFail gains1).ret = false := by
  constructor
  · simp [busGoodRearmFail, ak8963ReadSync, decodeSample, toInt16, gains1,
      STATUS1_DATA_READY, STATUS2_DATA_ERROR, STATUS2_MAG_SENSOR_OVERFLOW,
      show (0:Nat) &&& 2 = 0 from rfl, show (0:Nat) &&& 3 = 0 from rfl]
  · decide

/-- Claim C3, amended: on the good path the decoded sample is always
written to the caller's output array, independent of the re-arm write —
but the invocation's boolean result is the re-arm write's acknowledgment
(line 381 returns the write's ack), so a failed re-arm reports "no
sample" for that invocation even though the output array holds the
sample. -/
theorem c3_ret_equals_rearm_ack (bus : SyncBus) (g : MagGains) (st : Nat)
    (buf : List Nat) (h1 : bus.status1 = some st)
    (h2 : st &&& STATUS1_DATA_READY ≠ 0) (h3 : bus.data7 = some buf)
    (h4 : buf.getD 6 0 &&& 3 = 0) :
    (ak8963ReadSync bus g).magData = some (decodeSample buf g) ∧
    (ak8963ReadSync bus g).ret = bus.rearmAck := by
  rw [ak8963ReadSync_data_cases bus g st buf h1 h2 h3,
    if_neg (by simpa using h4)]
  exact ⟨rfl, rfl⟩

/-- Witness for C3 (amended) with a failing re-arm write. -/
theorem c3_ret_equals_rearm_ack_witness :
    (ak8963ReadSync busGoodRearmFail gains1).magData =
      some (decodeSample [0,0,0,0,0,0,0] gains1) ∧
    (ak8963ReadSync busGoodRearmFail gains1).ret = false :=
  c3_ret_equals_rearm_ack busGoodRearmFail gains1 1 [0,0,0,0,0,0,0] rfl
    (by decide) rfl (by decide)

/-- Claim C4, counterexample: a successful status read with only the
data-overrun bit (`0x02`) set makes the synchronous reader return "no
sample" without attempting the 7-byte data read (its bus trace holds only
the status read), although the claim says it should proceed. -/
theorem c4_overrun_only_cex :
    (2 : Nat) &&& STATUS1_DATA_OVERRUN ≠ 0 ∧
    (ak8963ReadSync busOverrunOnly gains1).ret = false ∧
    (ak8963ReadSync busOverrunOnly gains1).magData = none ∧
    (ak8963ReadSync busOverrunOnly gains1).events =
      [BusEvent.regRead AK8963_MAG_REG_STATUS1 1] := by
  decide

/-- Claim C4, amended: the synchronous reader attempts the 7-byte data
read exactly when the status read succeeded and the data-ready bit
(bit 0) is set; the data-overrun bit is not consulted in this mode
(line 366 tests only `STATUS1_DATA_READY`), so an overrun-only status
byte also yields "no sample" with no data read attempted. -/
theorem c4_sync_ready_gate (bus : SyncBus) (g : MagGains) :
    (BusEvent.regRead AK8963_MAG_REG_HXL 7 ∈ (ak8963ReadSync bus g).events ↔
      ∃ st, bus.status1 = some st ∧ st &&& STATUS1_DATA_READY ≠ 0) ∧
    ((∀ st, bus.status1 = some st → st &&& STATUS1_DATA_READY = 0) →
      (ak8963ReadSync bus g).ret = false ∧
      (ak8963ReadSync bus g).magData = none ∧
      (ak8963ReadSync bus g).events =
        [BusEvent.regRead AK8963_MAG_REG_STATUS1 1]) := by
  cases hb : bus.status1 with
  | none =>
    constructor
    · simp [ak8963ReadSync, hb, AK8963_MAG_REG_STATUS1, AK8963_MAG_REG_HXL]
    · intro hall
      simp [ak8963ReadSync, hb]
  | some st =>
    by_cases hr : st &&& STATUS1_DATA_READY = 0
    · constructor
      · simp [ak8963ReadSync, hb, hr, AK8963_MAG_REG_STATUS1,
          AK8963_MAG_REG_HXL]
      · intro hall
        simp [ak8963ReadSync, hb, hr]
    · constructor
      · cases hd : bus.data7 with
        | none =>
          simp [ak8963ReadSync, hb, hr, hd, AK8963_MAG_REG_STATUS1,
            AK8963_MAG_REG_HXL]
        | some buf =>
          rw [ak8963ReadSync_data_cases bus g st buf hb hr hd]
          by_cases hm : buf.getD 6 0 &&& 3 ≠ 0
          · rw [if_pos hm]
            simp [hr, AK8963_MAG_REG_STATUS1, AK8963_MAG_REG_HXL]
          · rw [if_neg hm]
            simp [hr, AK8963_MAG_REG_STATUS1, AK8963_MAG_REG_HXL]
      · intro hall
        exact absurd (hall st rfl) hr

/-- Witness for C4 (amended) at the overrun-only bus. -/
theorem c4_sync_ready_gate_witness :
    (BusEvent.regRead AK8963_MAG_REG_HXL 7 ∈
        (ak8963ReadSync busOverrunOnly gains1).events ↔
      ∃ st, busOverrunOnly.status1 = some st ∧
        st &&& STATUS1_DATA_READY ≠ 0) ∧
    ((ak8963ReadSync busOverrunOnly gains1).ret = false ∧
     (ak8963ReadSync busOverrunOnly gains1).magData = none ∧
     (ak8963ReadSync busOverrunOnly gains1).events =
       [BusEvent.regRead AK8963_MAG_REG_STATUS1 1]) :=
  ⟨(c4_sync_ready_gate busOverrunOnly gains1).1,
   (c4_sync_ready_gate busOverrunOnly gains1).2 (by decide)⟩

/-- Claim C5, counterexample: the gain the code computes for calibration
byte 128 is exactly 0, not 30: `(int8_t)128` is `-128`, so the source
expression yields `(((-128 - 128)/256) + 1) * 30 = 0`. -/
theorem c5_gain_at_128_cex :
    ak8963GainForByte 128 = 0 ∧ ak8963GainForByte 128 ≠ 30 := by
  constructor
  · norm_num [ak8963GainForByte, int8OfByte]
  · norm_num [ak8963GainForByte, int8OfByte]

/-- Claim C5, amended: every gain stored by `ak8963Init` equals the spec's
formula `(((signed8(b) − 128)/256) + 1) × 30` with `signed8` the 8-bit
two's-complement reading of the byte — but for `b = 128` that value is 0,
not 30, because `signed8(128) = −128`. -/
theorem c5_gain_formula (bX bY bZ : Nat) :
    (ak8963InitGains bX bY bZ).x = specGainFormula bX ∧
    (ak8963InitGains bX bY bZ).y = specGainFormula bY ∧
    (ak8963InitGains bX bY bZ).z = specGainFormula bZ ∧
    ak8963GainForByte 128 = 0 := by
  refine ⟨?_, ?_, ?_, by norm_num [ak8963GainForByte, int8OfByte]⟩ <;>
    simp [ak8963InitGains, ak8963GainForByte, specGainFormula]

/-- Claim C6: starting a queued read while one is outstanding returns
"not started", leaves the recorded length, start timestamp and the
`waiting` flag untouched, and arms nothing on the bus. -/
theorem c6_start_read_rejected_while_waiting (q : QueuedReadState)
    (now addr reg len : Nat) (h : q.waiting = true) :
    (ak8963SPIStartRead q now addr reg len).started = false ∧
    (ak8963SPIStartRead q now addr reg len).queuedRead = q ∧
    (ak8963SPIStartRead q now addr reg len).events = [] := by
  simp [ak8963SPIStartRead, h]

/-- Witness for C6 at a concrete outstanding read. -/
theorem c6_start_read_rejected_while_waiting_witness :
    (ak8963SPIStartRead ⟨true, 3, 77⟩ 99 12 2 1).started = false ∧
    (ak8963SPIStartRead ⟨true, 3, 77⟩ 99 12 2 1).queuedRead = ⟨true, 3, 77⟩ ∧
    (ak8963SPIStartRead ⟨true, 3, 77⟩ 99 12 2 1).events = [] :=
  c6_start_read_rejected_while_waiting ⟨true, 3, 77⟩ 99 12 2 1 rfl

/-- Claim C7, counterexample: a queued read started at clock value 0 and
queried `2^32` µs later (one full wrap of the 32-bit microsecond clock)
is reported as having 8000 µs remaining, although far more than 8000 µs
have elapsed. -/
theorem c7_time_gate_wrap_cex :
    8000 ≤ 4294967296 ∧
    ak8963SPIQueuedReadTimeRemaining
      { waiting := true, len := 1, readStartedAt := 0 } (0 + 4294967296) =
      8000 := by
  constructor
  · decide
  · decide

/-- Claim C7, amended: for a read started at clock `T` and queried `e` µs
later, the remaining-time check is strictly positive (equal to `8000 − e`)
whenever `e < 8000`, and is 0 whenever `8000 ≤ e`, provided fewer than
`2^31` µs have elapsed (beyond that the 32-bit arithmetic wraps); it is 0
whenever no read is waiting. -/
theorem c7_time_gate (T e len : Nat) :
    (e < 8000 →
      ak8963SPIQueuedReadTimeRemaining
        { waiting := true, len := len, readStartedAt := T } (T + e) =
        8000 - e ∧
      0 < ak8963SPIQueuedReadTimeRemaining
        { waiting := true, len := len, readStartedAt := T } (T + e)) ∧
    (8000 ≤ e → e < 2147483648 →
      ak8963SPIQueuedReadTimeRemaining
        { waiting := true, len := len, readStartedAt := T } (T + e) = 0) ∧
    (∀ q : QueuedReadState, q.waiting = false →
      ak8963SPIQueuedReadTimeRemaining q (T + e) = 0) := by
  have hu : usub32 (T + e) T = e % 4294967296 := usub32_add T e
  refine ⟨?_, ?_, ?_⟩
  · intro he
    simp only [ak8963SPIQueuedReadTimeRemaining, hu, toInt32, wrap32]
    norm_num
    split_ifs <;> omega
  · intro he hlt
    simp only [ak8963SPIQueuedReadTimeRemaining, hu, toInt32, wrap32]
    norm_num
    split_ifs <;> omega
  · intro q hq
    simp [ak8963SPIQueuedReadTimeRemaining, hq]

/-- Witness for C7 (amended) at `T = 100`, `e = 7999` and `e = 8000`. -/
theorem c7_time_gate_witness :
    (ak8963SPIQueuedReadTimeRemaining
      { waiting := true, len := 1, readStartedAt := 100 } (100 + 7999) = 1 ∧
     0 < ak8963SPIQueuedReadTimeRemaining
      { waiting := true, len := 1, readStartedAt := 100 } (100 + 7999)) ∧
    ak8963SPIQueuedReadTimeRemaining
      { waiting := true, len := 1, readStartedAt := 100 } (100 + 8000) = 0 :=
  ⟨(c7_time_gate 100 7999 1).1 (by decide),
   (c7_time_gate 100 8000 1).2.1 (by decide) (by decide)⟩

/-- Claim C8: every invocation of the asynchronous reader performs at most
one synchronous re-entry into `CHECK_STATUS` (`restarts ≤ 1`), and an
invocation that completes its status read with neither ready nor overrun
set returns "no sample yet" after exactly one such re-entry, with the
protocol back in `WAITING_FOR_STATUS` behind a freshly queued status
read. -/
theorem c8_single_retry (env : AsyncEnv) (g : MagGains)
    (s : AsyncDriverState) :
    (ak8963ReadAsync env g s).restarts ≤ 1 ∧
    (s.state = .WAITING_FOR_STATUS →
      ak8963SPIQueuedReadTimeRemaining s.queuedRead env.now = 0 →
      (env.extSensData.take s.queuedRead.len).getD 0 0 &&&
          STATUS1_DATA_READY = 0 ∧
        (env.extSensData.take s.queuedRead.len).getD 0 0 &&&
          STATUS1_DATA_OVERRUN = 0 →
      (ak8963ReadAsync env g s).ret = false ∧
      (ak8963ReadAsync env g s).restarts = 1 ∧
      (ak8963ReadAsync env g s).final.state = .WAITING_FOR_STATUS) := by
  constructor
  · cases hst : s.state with
    | CHECK_STATUS =>
      rw [show ak8963ReadAsync env g s = ak8963ReadGo env g 1 s from rfl,
        ak8963ReadGo_check_status env g 1 s hst]
      exact Nat.zero_le 1
    | WAITING_FOR_STATUS =>
      by_cases ht : ak8963SPIQueuedReadTimeRemaining s.queuedRead env.now = 0
      · by_cases hm : (env.extSensData.take s.queuedRead.len).getD 0 0 &&&
            STATUS1_DATA_READY = 0 ∧
            (env.extSensData.take s.queuedRead.len).getD 0 0 &&&
            STATUS1_DATA_OVERRUN = 0
        · rw [ak8963ReadAsync_status_miss env g s hst ht hm]
        · rw [show ak8963ReadAsync env g s = ak8963ReadGo env g 1 s from rfl,
            ak8963ReadGo_status_hit env g 1 s hst ht hm]
          exact Nat.zero_le 1
      · rw [show ak8963ReadAsync env g s = ak8963ReadGo env g 1 s from rfl,
          ak8963ReadGo_status_pending env g 1 s hst ht]
        exact Nat.zero_le 1
    | WAITING_FOR_DATA =>
      by_cases ht : ak8963SPIQueuedReadTimeRemaining s.queuedRead env.now = 0
      · rw [show ak8963ReadAsync env g s = ak8963ReadGo env g 1 s from rfl,
          ak8963ReadGo_waiting_for_data env g 1 s hst ht]
        by_cases hm : (env.extSensData.take s.queuedRead.len).getD 6 0 &&&
            3 ≠ 0
        · rw [if_pos hm]
          exact Nat.zero_le 1
        · rw [if_neg hm]
          exact Nat.zero_le 1
      · rw [show ak8963ReadAsync env g s = ak8963ReadGo env g 1 s from rfl,
          ak8963ReadGo_data_pending env g 1 s hst ht]
        exact Nat.zero_le 1
  · intro hst ht hm
    rw [ak8963ReadAsync_status_miss env g s hst ht hm]
    exact ⟨rfl, rfl, rfl⟩

/-- Witness for C8 at a completed status read of `0x00`. -/
theorem c8_single_retry_witness :
    (ak8963ReadAsync envStatusIdle gains1 waitingStatusState).restarts ≤ 1 ∧
    ((ak8963ReadAsync envStatusIdle gains1 waitingStatusState).ret = false ∧
     (ak8963ReadAsync envStatusIdle gains1 waitingStatusState).restarts = 1 ∧
     (ak8963ReadAsync envStatusIdle gains1 waitingStatusState).final.state =
       .WAITING_FOR_STATUS) :=
  ⟨(c8_single_retry envStatusIdle gains1 waitingStatusState).1,
   (c8_single_retry envStatusIdle gains1 waitingStatusState).2 rfl
     (by decide) (by decide)⟩

/-- Claim C9: an invocation that emits a sample ends with the `waiting`
flag cleared and has drained the queued transaction into the buffer
first, and every buffer fill in any invocation's trace happens with
`waiting` already false (the completion routine clears the flag before
reading the bus); moreover completing a read clears `waiting` and records
exactly one fill of the declared length. -/
theorem c9_no_fill_while_waiting (env : AsyncEnv) (g : MagGains)
    (s : AsyncDriverState) :
    ((ak8963ReadAsync env g s).ret = true →
      (ak8963ReadAsync env g s).final.queuedRead.waiting = false ∧
      BusEvent.fillBuffer s.queuedRead.len false ∈
        (ak8963ReadAsync env g s).events) ∧
    (∀ (len : Nat) (w : Bool),
      BusEvent.fillBuffer len w ∈ (ak8963ReadAsync env g s).events →
        w = false) ∧
    (∀ (q : QueuedReadState) (now : Nat) (ext : List Nat),
      (ak8963SPICompleteRead q now ext).queuedRead.waiting = false ∧
      (ak8963SPICompleteRead q now ext).events =
        [BusEvent.fillBuffer q.len false]) := by
  refine ⟨?_, ?_, fun q now ext => ⟨rfl, rfl⟩⟩
  · intro hret
    cases hst : s.state with
    | CHECK_STATUS =>
      rw [show ak8963ReadAsync env g s = ak8963ReadGo env g 1 s from rfl,
        ak8963ReadGo_check_status env g 1 s hst] at hret
      simp at hret
    | WAITING_FOR_STATUS =>
      by_cases ht : ak8963SPIQueuedReadTimeRemaining s.queuedRead env.now = 0
      · by_cases hm : (env.extSensData.take s.queuedRead.len).getD 0 0 &&&
            STATUS1_DATA_READY = 0 ∧
            (env.extSensData.take s.queuedRead.len).getD 0 0 &&&
            STATUS1_DATA_OVERRUN = 0
        · rw [ak8963ReadAsync_status_miss env g s hst ht hm] at hret
          simp at hret
        · rw [show ak8963ReadAsync env g s = ak8963ReadGo env g 1 s from rfl,
            ak8963ReadGo_status_hit env g 1 s hst ht hm] at hret
          simp at hret
      · rw [show ak8963ReadAsync env g s = ak8963ReadGo env g 1 s from rfl,
          ak8963ReadGo_status_pending env g 1 s hst ht] at hret
        simp at hret
    | WAITING_FOR_DATA =>
      by_cases ht : ak8963SPIQueuedReadTimeRemaining s.queuedRead env.now = 0
      · rw [show ak8963ReadAsync env g s = ak8963ReadGo env g 1 s from rfl,
          ak8963ReadGo_waiting_for_data env g 1 s hst ht] at hret ⊢
        by_cases hm : (env.extSensData.take s.queuedRead.len).getD 6 0 &&&
            3 ≠ 0
        · rw [if_pos hm] at hret
          simp at hret
        · rw [if_neg hm] at hret ⊢
          exact ⟨rfl, by simp⟩
      · rw [show ak8963ReadAsync env g s = ak8963ReadGo env g 1 s from rfl,
          ak8963ReadGo_data_pending env g 1 s hst ht] at hret
        simp at hret
  · exact fun len w hmem => ak8963ReadGo_fill_false env g 1 s len w hmem

/-- Witness for C9 at the clean completed 7-byte read. -/
theorem c9_no_fill_while_waiting_witness :
    ((ak8963ReadAsync envGoodData gains1 waitingDataState).final.queuedRead.waiting
        = false ∧
      BusEvent.fillBuffer waitingDataState.queuedRead.len false ∈
        (ak8963ReadAsync envGoodData gains1 waitingDataState).events) ∧
    false = false ∧
    ((ak8963SPICompleteRead ⟨true, 7, 0⟩ 8000 [0,0,0,0,0,0,0]).queuedRead.waiting
        = false ∧
      (ak8963SPICompleteRead ⟨true, 7, 0⟩ 8000 [0,0,0,0,0,0,0]).events =
        [BusEvent.fillBuffer 7 false]) :=
  ⟨(c9_no_fill_while_waiting envGoodData gains1 waitingDataState).1
      (by decide),
   (c9_no_fill_while_waiting envGoodData gains1 waitingDataState).2.1 7 false
      (by decide),
   (c9_no_fill_while_waiting envGoodData gains1 waitingDataState).2.2
      ⟨true, 7, 0⟩ 8000 [0,0,0,0,0,0,0]⟩

/-- Claim C10: `ak8963SPICompleteRead` acknowledges unconditionally
(line 184 returns a hard-coded true), so after a completed queued read
the asynchronous reader's "no sample" outcomes are decided by the status
bits alone: in `WAITING_FOR_DATA` the sample is withheld exactly when the
trailing byte trips the error/overflow masks, and in `WAITING_FOR_STATUS`
the transition to `WAITING_FOR_DATA` happens exactly when ready or
overrun is set — never because of a reported transaction failure. -/
theorem c10_complete_read_always_acks :
    (∀ (q : QueuedReadState) (now : Nat) (ext : List Nat),
      (ak8963SPICompleteRead q now ext).ack = true) ∧
    (∀ (env : AsyncEnv) (g : MagGains) (s : AsyncDriverState),
      s.state = .WAITING_FOR_DATA →
      ak8963SPIQueuedReadTimeRemaining s.queuedRead env.now = 0 →
      ((ak8963ReadAsync env g s).magData = none ↔
        ((env.extSensData.take s.queuedRead.len).getD 6 0 &&&
            STATUS2_DATA_ERROR ≠ 0 ∨
          (env.extSensData.take s.queuedRead.len).getD 6 0 &&&
            STATUS2_MAG_SENSOR_OVERFLOW ≠ 0))) ∧
    (∀ (env : AsyncEnv) (g : MagGains) (s : AsyncDriverState),
      s.state = .WAITING_FOR_STATUS →
      ak8963SPIQueuedReadTimeRemaining s.queuedRead env.now = 0 →
      ((ak8963ReadAsync env g s).final.state = .WAITING_FOR_DATA ↔
        ¬ ((env.extSensData.take s.queuedRead.len).getD 0 0 &&&
            STATUS1_DATA_READY = 0 ∧
          (env.extSensData.take s.queuedRead.len).getD 0 0 &&&
            STATUS1_DATA_OVERRUN = 0))) := by
  refine ⟨fun q now ext => rfl, ?_, ?_⟩
  · intro env g s hst ht
    rw [status2_reject_iff]
    simp only [ak8963ReadAsync]
    rw [ak8963ReadGo_waiting_for_data env g 1 s hst ht]
    by_cases hm : (env.extSensData.take s.queuedRead.len).getD 6 0 &&& 3 ≠ 0
    · rw [if_pos hm]
      simpa using hm
    · rw [if_neg hm]
      simpa using hm
  · intro env g s hst ht
    by_cases hm : (env.extSensData.take s.queuedRead.len).getD 0 0 &&&
        STATUS1_DATA_READY = 0 ∧
        (env.extSensData.take s.queuedRead.len).getD 0 0 &&&
        STATUS1_DATA_OVERRUN = 0
    · rw [ak8963ReadAsync_status_miss env g s hst ht hm]
      simpa using hm
    · rw [show ak8963ReadAsync env g s = ak8963ReadGo env g 1 s from rfl,
        ak8963ReadGo_status_hit env g 1 s hst ht hm]
      simpa using hm

/-- Witness for C10 at the data-error and idle-status scenarios. -/
theorem c10_complete_read_always_acks_witness :
    (ak8963SPICompleteRead ⟨true, 7, 0⟩ 8000 [1,2,3]).ack = true ∧
    ((ak8963ReadAsync envDataError gains1 waitingDataState).magData = none ↔
      ((envDataError.extSensData.take
          waitingDataState.queuedRead.len).getD 6 0 &&&
          STATUS2_DATA_ERROR ≠ 0 ∨
        (envDataError.extSensData.take
          waitingDataState.queuedRead.len).getD 6 0 &&&
          STATUS2_MAG_SENSOR_OVERFLOW ≠ 0)) ∧
    ((ak8963ReadAsync envStatusIdle gains1 waitingStatusState).final.state =
        .WAITING_FOR_DATA ↔
      ¬ ((envStatusIdle.extSensData.take
          waitingStatusState.queuedRead.len).getD 0 0 &&&
          STATUS1_DATA_READY = 0 ∧
        (envStatusIdle.extSensData.take
          waitingStatusState.queuedRead.len).getD 0 0 &&&
          STATUS1_DATA_OVERRUN = 0)) :=
  ⟨c10_complete_read_always_acks.1 ⟨true, 7, 0⟩ 8000 [1,2,3],
   c10_complete_read_always_acks.2.1 envDataError gains1 waitingDataState
     rfl (by decide),
   c10_complete_read_always_acks.2.2 envStatusIdle gains1 waitingStatusState
     rfl (by decide)⟩
